import Mathlib

/-!
Verification of the GRC platform's job-execution engine and service
registry / circuit breaker, embedded shallowly from the TypeScript source
(`ServiceRegistry`, `JobSchedulerService`, `retryAsync`).

Timestamps (`Date` values, `Date.now()`) are modelled as natural numbers
(milliseconds since epoch); each operation that reads the clock takes the
current time `now` as an explicit argument.  The JavaScript `Map` objects
are modelled as association lists with `mapGet` / `mapSet`; in-place
mutation of a value fetched from a map becomes a `mapSet` writing the
updated record back at the same key.
-/

/-- Association-list lookup, modelling `Map.prototype.get`. -/
def mapGet {V : Type} (m : List (String × V)) (k : String) : Option V :=
  match m with
  | [] => none
  | (k', v) :: rest => if k' = k then some v else mapGet rest k

/-- Association-list update, modelling `Map.prototype.set`:
replaces the value at an existing key, otherwise appends the entry. -/
def mapSet {V : Type} (m : List (String × V)) (k : String) (v : V) :
    List (String × V) :=
  match m with
  | [] => [(k, v)]
  | (k', v') :: rest =>
    if k' = k then (k, v) :: rest else (k', v') :: mapSet rest k v

theorem mapGet_mapSet_self {V : Type} (m : List (String × V)) (k : String) (v : V) :
    mapGet (mapSet m k v) k = some v := by
  induction m with
  | nil => simp [mapGet, mapSet]
  | cons hd tl ih =>
    obtain ⟨k', v'⟩ := hd
    by_cases h : k' = k <;> simp [mapGet, mapSet, h, ih]

theorem mapGet_mapSet_other {V : Type} (m : List (String × V)) (k k' : String)
    (v : V) (h : k ≠ k') : mapGet (mapSet m k v) k' = mapGet m k' := by
  induction m with
  | nil => simp [mapGet, mapSet, h]
  | cons hd tl ih =>
    obtain ⟨k0, v0⟩ := hd
    by_cases h0 : k0 = k
    · subst h0
      simp [mapGet, mapSet, h]
    · simp [mapGet, mapSet, h0, ih]

/-- Source `ServiceStatus`: service health status. -/
inductive ServiceStatus where
  | healthy
  | degraded
  | unhealthy
  | unknown
deriving DecidableEq, Repr

/-- Source `ServiceInfo`: registered service information.
(`metadata` is an unread blob of unknown shape and is not modelled.) -/
structure ServiceInfo where
  name : String
  url : String
  version : Option String := none
  status : ServiceStatus
  lastCheck : Nat
  consecutiveFailures : Nat
deriving DecidableEq, Repr

/-- Source `ServiceCircuitState`. -/
inductive ServiceCircuitState where
  | closed
  | «open»
  | half_open
deriving DecidableEq, Repr

/-- Source `CircuitBreakerConfig`. -/
structure CircuitBreakerConfig where
  failureThreshold : Nat
  successThreshold : Nat
  timeout : Nat
deriving DecidableEq, Repr

/-- Source `_DEFAULT_CIRCUIT_CONFIG`. -/
def defaultCircuitConfig : CircuitBreakerConfig :=
  { failureThreshold := 5, successThreshold := 2, timeout := 30000 }

/-- Source `CircuitBreakerState`. -/
structure CircuitBreakerState where
  state : ServiceCircuitState
  failures : Nat
  successes : Nat
  lastFailureTime : Option Nat := none
  nextRetryTime : Option Nat := none
deriving DecidableEq, Repr

/-- The mutable state of a `ServiceRegistry` instance: the two maps plus
the configuration fixed at construction. -/
structure ServiceRegistry where
  services : List (String × ServiceInfo)
  circuitBreakers : List (String × CircuitBreakerState)
  circuitConfig : CircuitBreakerConfig
deriving DecidableEq, Repr

namespace ServiceRegistry

/-- Source `ServiceRegistry.register`. -/
def register (reg : ServiceRegistry) (name url : String) (now : Nat) :
    ServiceRegistry :=
  { reg with
    services := mapSet reg.services name
      { name := name, url := url, status := ServiceStatus.unknown,
        lastCheck := now, consecutiveFailures := 0 },
    circuitBreakers := mapSet reg.circuitBreakers name
      { state := ServiceCircuitState.closed, failures := 0, successes := 0 } }

/-- Source `ServiceRegistry.getServiceUrl`: returns the URL (or `none` on a
fast-fail) together with the registry state after the call, since the
check may move an open circuit to half-open. -/
def getServiceUrl (reg : ServiceRegistry) (name : String) (now : Nat) :
    Option String × ServiceRegistry :=
  match mapGet reg.services name with
  | none => (none, reg)
  | some service =>
    match mapGet reg.circuitBreakers name with
    | some circuit =>
      if circuit.state = ServiceCircuitState.«open» then
        match circuit.nextRetryTime with
        | some t =>
          if now ≥ t then
            (some service.url,
             { reg with
               circuitBreakers := mapSet reg.circuitBreakers name
                 { circuit with state := ServiceCircuitState.half_open } })
          else (none, reg)
        | none => (none, reg)
      else (some service.url, reg)
    | none => (some service.url, reg)

/-- Source `ServiceRegistry.getService`. -/
def getService (reg : ServiceRegistry) (name : String) : Option ServiceInfo :=
  mapGet reg.services name

/-- Source `ServiceRegistry.getCircuitState`. -/
def getCircuitState (reg : ServiceRegistry) (name : String) :
    Option ServiceCircuitState :=
  (mapGet reg.circuitBreakers name).map CircuitBreakerState.state

/-- Source `ServiceRegistry.recordSuccess`. -/
def recordSuccess (reg : ServiceRegistry) (name : String) (now : Nat) :
    ServiceRegistry :=
  match mapGet reg.circuitBreakers name with
  | none => reg
  | some circuit0 =>
    let circuit1 := { circuit0 with failures := 0, successes := circuit0.successes + 1 }
    let circuit2 :=
      if circuit1.state = ServiceCircuitState.half_open ∧
          circuit1.successes ≥ reg.circuitConfig.successThreshold then
        { circuit1 with state := ServiceCircuitState.closed, successes := 0 }
      else circuit1
    let reg1 := { reg with circuitBreakers := mapSet reg.circuitBreakers name circuit2 }
    match mapGet reg1.services name with
    | none => reg1
    | some service =>
      { reg1 with
        services := mapSet reg1.services name
          { service with status := ServiceStatus.healthy,
                         consecutiveFailures := 0, lastCheck := now } }

/-- Source `ServiceRegistry.tripCircuit`. -/
def tripCircuit (circuit : CircuitBreakerState) (now : Nat)
    (cfg : CircuitBreakerConfig) : CircuitBreakerState :=
  { circuit with state := ServiceCircuitState.«open»,
                 nextRetryTime := some (now + cfg.timeout) }

/-- Source `ServiceRegistry.recordFailure`. -/
def recordFailure (reg : ServiceRegistry) (name : String) (now : Nat) :
    ServiceRegistry :=
  match mapGet reg.circuitBreakers name with
  | none => reg
  | some circuit0 =>
    let circuit1 :=
      { circuit0 with failures := circuit0.failures + 1, successes := 0,
                      lastFailureTime := some now }
    let circuit2 :=
      if circuit1.state = ServiceCircuitState.half_open then
        tripCircuit circuit1 now reg.circuitConfig
      else if circuit1.state = ServiceCircuitState.closed ∧
          circuit1.failures ≥ reg.circuitConfig.failureThreshold then
        tripCircuit circuit1 now reg.circuitConfig
      else circuit1
    let reg1 := { reg with circuitBreakers := mapSet reg.circuitBreakers name circuit2 }
    match mapGet reg1.services name with
    | none => reg1
    | some service =>
      { reg1 with
        services := mapSet reg1.services name
          { service with
            consecutiveFailures := service.consecutiveFailures + 1,
            status := if circuit2.state = ServiceCircuitState.«open» then
                ServiceStatus.unhealthy
              else ServiceStatus.degraded,
            lastCheck := now } }

end ServiceRegistry

/-- A sequence of consecutive `recordFailure` calls on one service, one per
timestamp in the list, with no intervening `recordSuccess`. -/
def recordFailures (reg : ServiceRegistry) (name : String) (times : List Nat) :
    ServiceRegistry :=
  times.foldl (fun r t => r.recordFailure name t) reg

/-- One `recordFailure` on a closed circuit whose incremented count stays
below the threshold: the counter goes up, the state stays closed. -/
theorem recordFailure_closed_below (reg : ServiceRegistry) (name : String)
    (now : Nat) (c : CircuitBreakerState)
    (hc : mapGet reg.circuitBreakers name = some c)
    (hcl : c.state = ServiceCircuitState.closed)
    (hlt : c.failures + 1 < reg.circuitConfig.failureThreshold) :
    mapGet (reg.recordFailure name now).circuitBreakers name =
      some { c with failures := c.failures + 1, successes := 0,
                    lastFailureTime := some now } ∧
    (reg.recordFailure name now).circuitConfig = reg.circuitConfig := by
  have hnot : ¬ (c.failures + 1 ≥ reg.circuitConfig.failureThreshold) := by omega
  unfold ServiceRegistry.recordFailure
  rw [hc]
  simp only [hcl]
  rw [if_neg (by simp), if_neg (by simp [hnot])]
  cases hs : mapGet reg.services name <;>
    simp [hs, mapGet_mapSet_self]

/-- One `recordFailure` on a closed circuit whose incremented count reaches
the threshold: the circuit trips to open with `nextRetryTime = now + timeout`. -/
theorem recordFailure_closed_trip (reg : ServiceRegistry) (name : String)
    (now : Nat) (c : CircuitBreakerState)
    (hc : mapGet reg.circuitBreakers name = some c)
    (hcl : c.state = ServiceCircuitState.closed)
    (hge : c.failures + 1 ≥ reg.circuitConfig.failureThreshold) :
    mapGet (reg.recordFailure name now).circuitBreakers name =
      some { c with state := ServiceCircuitState.«open»,
                    failures := c.failures + 1, successes := 0,
                    lastFailureTime := some now,
                    nextRetryTime := some (now + reg.circuitConfig.timeout) } ∧
    (reg.recordFailure name now).circuitConfig = reg.circuitConfig := by
  unfold ServiceRegistry.recordFailure
  rw [hc]
  simp only [hcl]
  rw [if_neg (by simp), if_pos (by simp [hge])]
  cases hs : mapGet reg.services name <;>
    simp [hs, mapGet_mapSet_self, ServiceRegistry.tripCircuit]

/-- A run of consecutive failures that stays strictly below the threshold
keeps the circuit closed and just accumulates the counter. -/
theorem recordFailures_closed_below (name : String) :
    ∀ (times : List Nat) (reg : ServiceRegistry) (c : CircuitBreakerState),
    mapGet reg.circuitBreakers name = some c →
    c.state = ServiceCircuitState.closed →
    c.failures + times.length < reg.circuitConfig.failureThreshold →
    ∃ c', mapGet (recordFailures reg name times).circuitBreakers name = some c' ∧
      c'.state = ServiceCircuitState.closed ∧
      c'.failures = c.failures + times.length ∧
      (recordFailures reg name times).circuitConfig = reg.circuitConfig := by
  intro times
  induction times with
  | nil =>
    intro reg c hc hcl _
    exact ⟨c, hc, hcl, by simp [recordFailures], by simp [recordFailures]⟩
  | cons t ts ih =>
    intro reg c hc hcl hlt
    have hstep := recordFailure_closed_below reg name t c hc hcl (by simp at hlt; omega)
    have hrec : recordFailures reg name (t :: ts) =
        recordFailures (reg.recordFailure name t) name ts := by
      simp [recordFailures]
    obtain ⟨c', hget', hst', hf', hcfg'⟩ :=
      ih (reg.recordFailure name t)
        { c with failures := c.failures + 1, successes := 0, lastFailureTime := some t }
        hstep.1 (by simpa using hcl) (by simp [hstep.2]; simp at hlt; omega)
    refine ⟨c', by rw [hrec]; exact hget', hst', by simp at hf' ⊢; omega,
      by rw [hrec, hcfg', hstep.2]⟩

/-- C1: for a registered service whose circuit is closed, consecutive
`recordFailure` calls (no intervening `recordSuccess`) leave the circuit
closed while the failure count stays below `failureThreshold`, and the call
that makes the count reach `failureThreshold` trips the circuit to open with
`nextRetryTime = now + timeout` (the configured cooldown). -/
theorem circuit_closed_failure_sequence (reg : ServiceRegistry) (name : String)
    (c : CircuitBreakerState) (times : List Nat) (now : Nat)
    (hc : mapGet reg.circuitBreakers name = some c)
    (hcl : c.state = ServiceCircuitState.closed) :
    (c.failures + times.length < reg.circuitConfig.failureThreshold →
      ∃ c', mapGet (recordFailures reg name times).circuitBreakers name = some c' ∧
        c'.state = ServiceCircuitState.closed ∧
        c'.failures = c.failures + times.length) ∧
    (c.failures + times.length + 1 = reg.circuitConfig.failureThreshold →
      ∃ c', mapGet ((recordFailures reg name times).recordFailure name now).circuitBreakers
              name = some c' ∧
        c'.state = ServiceCircuitState.«open» ∧
        c'.failures = reg.circuitConfig.failureThreshold ∧
        c'.nextRetryTime = some (now + reg.circuitConfig.timeout)) := by
  constructor
  · intro hlt
    obtain ⟨c', hget', hst', hf', _⟩ :=
      recordFailures_closed_below name times reg c hc hcl hlt
    exact ⟨c', hget', hst', hf'⟩
  · intro heq
    obtain ⟨c', hget', hst', hf', hcfg'⟩ :=
      recordFailures_closed_below name times reg c hc hcl (by omega)
    have htrip := recordFailure_closed_trip (recordFailures reg name times) name now c'
      hget' hst' (by rw [hcfg']; omega)
    refine ⟨_, htrip.1, by simp, by simp [hcfg']; omega, by simp [hcfg']⟩

/-- A registered service fixture with a fresh closed circuit. -/
def regClosed : ServiceRegistry :=
  { services := [("svc",
      { name := "svc", url := "http://localhost:3001",
        status := ServiceStatus.unknown, lastCheck := 0, consecutiveFailures := 0 })],
    circuitBreakers := [("svc",
      { state := ServiceCircuitState.closed, failures := 0, successes := 0 })],
    circuitConfig := defaultCircuitConfig }

/-- Witness for C1: with the default threshold 5, four failures leave the
fixture circuit closed and the fifth call at time 50 trips it to open with
`nextRetryTime = 50 + 30000`. -/
theorem circuit_closed_failure_sequence_witness :
    ∃ c', mapGet ((recordFailures regClosed "svc" [10, 20, 30, 40]).recordFailure
            "svc" 50).circuitBreakers "svc" = some c' ∧
      c'.state = ServiceCircuitState.«open» ∧
      c'.failures = regClosed.circuitConfig.failureThreshold ∧
      c'.nextRetryTime = some (50 + regClosed.circuitConfig.timeout) :=
  (circuit_closed_failure_sequence regClosed "svc"
      { state := ServiceCircuitState.closed, failures := 0, successes := 0 }
      [10, 20, 30, 40] 50 (by decide) (by decide)).2 (by decide)

/-- C2: for a registered service whose circuit is open: before
`nextRetryTime`, `getServiceUrl` fast-fails with no URL and the registry
(hence the circuit state) is unchanged; at or after `nextRetryTime`, the
circuit state becomes half-open (and the URL is returned). -/
theorem circuit_open_getServiceUrl (reg : ServiceRegistry) (name : String)
    (now : Nat) (svc : ServiceInfo) (c : CircuitBreakerState) (t : Nat)
    (hs : mapGet reg.services name = some svc)
    (hc : mapGet reg.circuitBreakers name = some c)
    (hst : c.state = ServiceCircuitState.«open»)
    (ht : c.nextRetryTime = some t) :
    (now < t → reg.getServiceUrl name now = (none, reg)) ∧
    (t ≤ now → (reg.getServiceUrl name now).1 = some svc.url ∧
      (reg.getServiceUrl name now).2.getCircuitState name =
        some ServiceCircuitState.half_open) := by
  constructor
  · intro hlt
    have hnot : ¬ (now ≥ t) := by omega
    unfold ServiceRegistry.getServiceUrl
    rw [hs, hc]
    simp [hst, ht, hnot]
  · intro hle
    have hge : now ≥ t := hle
    unfold ServiceRegistry.getServiceUrl
    rw [hs, hc]
    simp [hst, ht, hge, ServiceRegistry.getCircuitState, mapGet_mapSet_self]

/-- A registered service fixture whose circuit is open until time 1000. -/
def regOpen : ServiceRegistry :=
  { services := [("svc",
      { name := "svc", url := "http://localhost:3001",
        status := ServiceStatus.unhealthy, lastCheck := 100, consecutiveFailures := 5 })],
    circuitBreakers := [("svc",
      { state := ServiceCircuitState.«open», failures := 5, successes := 0,
        lastFailureTime := some 100, nextRetryTime := some 1000 })],
    circuitConfig := defaultCircuitConfig }

/-- Witness for C2: on the open fixture, at time 500 (< 1000) the lookup
fast-fails and changes nothing. -/
theorem circuit_open_getServiceUrl_witness :
    regOpen.getServiceUrl "svc" 500 = (none, regOpen) :=
  (circuit_open_getServiceUrl regOpen "svc" 500
      { name := "svc", url := "http://localhost:3001",
        status := ServiceStatus.unhealthy, lastCheck := 100, consecutiveFailures := 5 }
      { state := ServiceCircuitState.«open», failures := 5, successes := 0,
        lastFailureTime := some 100, nextRetryTime := some 1000 }
      1000 (by decide) (by decide) (by decide) (by decide)).1 (by decide)

/-- A registered service fixture whose circuit is half-open with an
accumulated failure count of 3 (below the default threshold 5). -/
def regHalf : ServiceRegistry :=
  { services := [("svc",
      { name := "svc", url := "http://localhost:3001",
        status := ServiceStatus.degraded, lastCheck := 100, consecutiveFailures := 3 })],
    circuitBreakers := [("svc",
      { state := ServiceCircuitState.half_open, failures := 3, successes := 0,
        lastFailureTime := some 100, nextRetryTime := some 900 })],
    circuitConfig := defaultCircuitConfig }

/-- Counterexample to C3's final clause: on a half-open circuit with 3
accumulated failures, `recordFailure` at time 1000 leaves the failure count
at 4 — the failure streak is incremented, not reset to 0. -/
theorem halfopen_failure_streak_not_reset :
    (mapGet (regHalf.recordFailure "svc" 1000).circuitBreakers "svc").map
        CircuitBreakerState.failures = some 4 ∧
    (mapGet (regHalf.recordFailure "svc" 1000).circuitBreakers "svc").map
        CircuitBreakerState.failures ≠ some 0 := by
  decide

/-- C3 (amended): on a half-open circuit a single `recordFailure` re-trips
to open with `nextRetryTime = now + timeout`, regardless of how the failure
count compares to `failureThreshold`; the success counter is reset to 0 and
`lastFailureTime` is updated, while the failure counter is incremented by
one rather than reset. -/
theorem circuit_halfopen_failure_retrips (reg : ServiceRegistry) (name : String)
    (now : Nat) (c : CircuitBreakerState)
    (hc : mapGet reg.circuitBreakers name = some c)
    (hst : c.state = ServiceCircuitState.half_open) :
    mapGet (reg.recordFailure name now).circuitBreakers name =
      some { c with state := ServiceCircuitState.«open»,
                    failures := c.failures + 1, successes := 0,
                    lastFailureTime := some now,
                    nextRetryTime := some (now + reg.circuitConfig.timeout) } := by
  unfold ServiceRegistry.recordFailure
  rw [hc]
  simp only [hst]
  rw [if_pos (by simp)]
  cases hs : mapGet reg.services name <;>
    simp [hs, mapGet_mapSet_self, ServiceRegistry.tripCircuit]

/-- Witness for C3 (amended): on the half-open fixture, one failure at time
1000 re-trips to open with a fresh cooldown, failure count 4. -/
theorem circuit_halfopen_failure_retrips_witness :
    mapGet (regHalf.recordFailure "svc" 1000).circuitBreakers "svc" =
      some { state := ServiceCircuitState.«open», failures := 4, successes := 0,
             lastFailureTime := some 1000,
             nextRetryTime := some (1000 + regHalf.circuitConfig.timeout) } :=
  circuit_halfopen_failure_retrips regHalf "svc" 1000
    { state := ServiceCircuitState.half_open, failures := 3, successes := 0,
      lastFailureTime := some 100, nextRetryTime := some 900 }
    (by decide) (by decide)

/-- Counterexample to C4: on the open fixture (`nextRetryTime = 1000`), a
`recordSuccess` at time 500 does change the registry — it resets the failure
counter, increments the success counter, and marks the service healthy. -/
theorem open_recordSuccess_changes_state :
    ¬ (regOpen.recordSuccess "svc" 500 = regOpen) ∧
    (mapGet (regOpen.recordSuccess "svc" 500).circuitBreakers "svc").map
        CircuitBreakerState.successes = some 1 := by
  decide

/-- C4 (amended): while the circuit is open before `nextRetryTime`, a
`recordSuccess` call performs no state transition — the circuit stays open —
but it is not a no-op: it resets `failures` to 0, increments `successes`,
and sets the service entry healthy with `consecutiveFailures = 0` and a
fresh `lastCheck`. -/
theorem circuit_open_recordSuccess (reg : ServiceRegistry) (name : String)
    (now : Nat) (svc : ServiceInfo) (c : CircuitBreakerState) (t : Nat)
    (hs : mapGet reg.services name = some svc)
    (hc : mapGet reg.circuitBreakers name = some c)
    (hst : c.state = ServiceCircuitState.«open»)
    (ht : c.nextRetryTime = some t) (hnow : now < t) :
    (reg.recordSuccess name now).getCircuitState name =
      some ServiceCircuitState.«open» ∧
    mapGet (reg.recordSuccess name now).circuitBreakers name =
      some { c with failures := 0, successes := c.successes + 1 } ∧
    mapGet (reg.recordSuccess name now).services name =
      some { svc with status := ServiceStatus.healthy,
                      consecutiveFailures := 0, lastCheck := now } := by
  have hmain : mapGet (reg.recordSuccess name now).circuitBreakers name =
      some { c with failures := 0, successes := c.successes + 1 } ∧
      mapGet (reg.recordSuccess name now).services name =
      some { svc with status := ServiceStatus.healthy,
                      consecutiveFailures := 0, lastCheck := now } := by
    unfold ServiceRegistry.recordSuccess
    rw [hc]
    simp only [hst]
    rw [if_neg (by simp)]
    rw [hs]
    simp [mapGet_mapSet_self]
  refine ⟨?_, hmain.1, hmain.2⟩
  simp [ServiceRegistry.getCircuitState, hmain.1, hst]

/-- Witness for C4 (amended): on the open fixture at time 500 (< 1000) the
circuit stays open while the counters and service fields are rewritten. -/
theorem circuit_open_recordSuccess_witness :
    (regOpen.recordSuccess "svc" 500).getCircuitState "svc" =
      some ServiceCircuitState.«open» ∧
    mapGet (regOpen.recordSuccess "svc" 500).circuitBreakers "svc" =
      some { state := ServiceCircuitState.«open», failures := 0, successes := 1,
             lastFailureTime := some 100, nextRetryTime := some 1000 } ∧
    mapGet (regOpen.recordSuccess "svc" 500).services "svc" =
      some { name := "svc", url := "http://localhost:3001",
             status := ServiceStatus.healthy, lastCheck := 500,
             consecutiveFailures := 0 } :=
  circuit_open_recordSuccess regOpen "svc" 500
    { name := "svc", url := "http://localhost:3001",
      status := ServiceStatus.unhealthy, lastCheck := 100, consecutiveFailures := 5 }
    { state := ServiceCircuitState.«open», failures := 5, successes := 0,
      lastFailureTime := some 100, nextRetryTime := some 1000 }
    1000 (by decide) (by decide) (by decide) (by decide) (by decide)

/-- C10: operations on a name that was never registered are total no-ops:
`getServiceUrl` yields no URL and leaves the registry untouched,
`getCircuitState` yields nothing, and `recordSuccess` / `recordFailure`
leave the entire registry state unchanged. -/
theorem unregistered_name_noop (reg : ServiceRegistry) (name : String) (now : Nat)
    (hs : mapGet reg.services name = none)
    (hc : mapGet reg.circuitBreakers name = none) :
    reg.getServiceUrl name now = (none, reg) ∧
    reg.getCircuitState name = none ∧
    reg.recordSuccess name now = reg ∧
    reg.recordFailure name now = reg := by
  refine ⟨?_, ?_, ?_, ?_⟩
  · unfold ServiceRegistry.getServiceUrl
    rw [hs]
  · simp [ServiceRegistry.getCircuitState, hc]
  · unfold ServiceRegistry.recordSuccess
    rw [hc]
  · unfold ServiceRegistry.recordFailure
    rw [hc]

/-- Witness for C10: the name "ghost" was never registered in the closed
fixture, and every operation on it is a no-op. -/
theorem unregistered_name_noop_witness :
    regClosed.getServiceUrl "ghost" 42 = (none, regClosed) ∧
    regClosed.getCircuitState "ghost" = none ∧
    regClosed.recordSuccess "ghost" 42 = regClosed ∧
    regClosed.recordFailure "ghost" 42 = regClosed :=
  unregistered_name_noop regClosed "ghost" 42 (by decide) (by decide)


/-!
Job scheduler (`JobSchedulerService`).  The Prisma-backed job store is
modelled as a list of job records inside a scheduler state; the `@Optional`
injected collaborators are modelled as `Option (Except String Unit)`:
`none` means the module is absent (not injected), `some outcome` means the
service is present and its underlying call either succeeds or throws the
given message.  Fields of job payloads echoed back into results
(`collectorId`, `to`, `mappingId`, ...) are opaque data and are not
modelled.
-/

/-- Source `JobResult`: job execution result with mock-mode
indicator.  The open index signature is represented by the one extra key
the scheduler actually writes, `reason` (used by the unknown-type arm). -/
structure JobResult where
  status : String
  isMockMode : Bool := false
  mockModeReason : Option String := none
  reason : Option String := none
deriving DecidableEq, Repr

/-- A mock-mode result `{status, isMockMode: true, mockModeReason}`. -/
def mockResult (status why : String) : JobResult :=
  { status := status, isMockMode := true, mockModeReason := some why }

instance {ε α : Type} [DecidableEq ε] [DecidableEq α] :
    DecidableEq (Except ε α) := fun a b =>
  match a, b with
  | Except.error e, Except.error e' =>
    if h : e = e' then Decidable.isTrue (by rw [h])
    else Decidable.isFalse (fun hc => h (Except.error.inj hc))
  | Except.error _, Except.ok _ => Decidable.isFalse (fun hc => Except.noConfusion hc)
  | Except.ok _, Except.error _ => Decidable.isFalse (fun hc => Except.noConfusion hc)
  | Except.ok v, Except.ok v' =>
    if h : v = v' then Decidable.isTrue (by rw [h])
    else Decidable.isFalse (fun hc => h (Except.ok.inj hc))

/-- The `@Optional()`-injected collaborators of `JobSchedulerService`,
plus the outcomes of the two Prisma-backed maintenance operations. -/
structure InjectedServices where
  collectorsService : Option (Except String Unit) := none
  emailService : Option (Except String Unit) := none
  notificationsService : Option (Except String Unit) := none
  scheduledNotificationsService : Option (Except String Unit) := none
  jiraService : Option (Except String Unit) := none
  serviceNowService : Option (Except String Unit) := none
  exportsService : Option (Except String Unit) := none
  reportsService : Option (Except String Unit) := none
  retentionService : Option (Except String Unit) := none
  webhooksService : Option (Except String Unit) := none
  sessionService : Option (Except String Unit) := none
  auditLogDeleteMany : Except String Nat := Except.ok 0
  searchIndexRefresh : Except String Unit := Except.ok ()
deriving DecidableEq, Repr

/-- Source `runEvidenceCollector`. -/
def runEvidenceCollector (svc : InjectedServices) : Except String JobResult :=
  match svc.collectorsService with
  | none => Except.ok (mockResult "completed"
      "CollectorsService not injected - ensure CollectorsModule is imported")
  | some (Except.error e) => Except.error e
  | some (Except.ok _) => Except.ok { status := "completed" }

/-- Source `sendScheduledNotifications`. -/
def sendScheduledNotifications (svc : InjectedServices) : Except String JobResult :=
  match svc.scheduledNotificationsService with
  | none => Except.ok (mockResult "completed" "ScheduledNotificationsService not injected")
  | some (Except.error e) => Except.error e
  | some (Except.ok _) => Except.ok { status := "completed" }

/-- Source `sendEmail`. -/
def sendEmail (svc : InjectedServices) : Except String JobResult :=
  match svc.emailService with
  | none => Except.ok (mockResult "sent" "EmailService not injected")
  | some (Except.error e) => Except.error e
  | some (Except.ok _) => Except.ok { status := "sent" }

/-- Source `syncJira`. -/
def syncJira (svc : InjectedServices) : Except String JobResult :=
  match svc.jiraService with
  | none => Except.ok (mockResult "synced"
      "JiraService not injected - ensure JiraModule is imported")
  | some (Except.error e) => Except.error e
  | some (Except.ok _) => Except.ok { status := "synced" }

/-- Source `syncServiceNow`. -/
def syncServiceNow (svc : InjectedServices) : Except String JobResult :=
  match svc.serviceNowService with
  | none => Except.ok (mockResult "synced"
      "ServiceNowService not injected - ensure ServiceNowModule is imported")
  | some (Except.error e) => Except.error e
  | some (Except.ok _) => Except.ok { status := "synced" }

/-- Source `generateExport`. -/
def generateExport (svc : InjectedServices) : Except String JobResult :=
  match svc.exportsService with
  | none => Except.ok (mockResult "generated" "ExportsService not injected")
  | some (Except.error e) => Except.error e
  | some (Except.ok _) => Except.ok { status := "generated" }

/-- Source `generateReport`. -/
def generateReport (svc : InjectedServices) : Except String JobResult :=
  match svc.reportsService with
  | none => Except.ok (mockResult "generated" "ReportsService not injected")
  | some (Except.error e) => Except.error e
  | some (Except.ok _) => Except.ok { status := "generated" }

/-- Source `cleanupExpiredSessions`. -/
def cleanupExpiredSessions (svc : InjectedServices) : Except String JobResult :=
  match svc.sessionService with
  | none => Except.ok (mockResult "completed" "SessionService not injected")
  | some (Except.error e) => Except.error e
  | some (Except.ok _) => Except.ok { status := "completed" }

/-- Source `cleanupOldAuditLogs`: backed directly by Prisma, no mock mode. -/
def cleanupOldAuditLogs (svc : InjectedServices) : Except String JobResult :=
  match svc.auditLogDeleteMany with
  | Except.error e => Except.error e
  | Except.ok _ => Except.ok { status := "completed" }

/-- Source `runRetentionPolicies`. -/
def runRetentionPolicies (svc : InjectedServices) : Except String JobResult :=
  match svc.retentionService with
  | none => Except.ok (mockResult "completed" "RetentionService not injected")
  | some (Except.error e) => Except.error e
  | some (Except.ok _) => Except.ok { status := "completed" }

/-- Source `refreshSearchIndexes`: all raw-SQL errors are caught, so it always
completes. -/
def refreshSearchIndexes (svc : InjectedServices) : Except String JobResult :=
  match svc.searchIndexRefresh with
  | Except.error _ => Except.ok { status := "completed" }
  | Except.ok _ => Except.ok { status := "completed" }

/-- Source `deliverWebhook` (a throw for missing delivery parameters is subsumed
by an error outcome of the modelled webhook call). -/
def deliverWebhook (svc : InjectedServices) : Except String JobResult :=
  match svc.webhooksService with
  | none => Except.ok (mockResult "delivered" "WebhooksService not injected")
  | some (Except.error e) => Except.error e
  | some (Except.ok _) => Except.ok { status := "delivered" }

/-- The job-type names with a registered arm in `executeJob`'s switch. -/
def handlerNames : List String :=
  ["run-evidence-collector", "send-scheduled-notifications", "send-email",
   "sync-jira", "sync-servicenow", "generate-export", "generate-report",
   "cleanup-expired-sessions", "cleanup-old-audit-logs",
   "run-retention-policies", "refresh-search-indexes", "deliver-webhook"]

/-- Source `executeJob`: route a job to the handler matching its name; an unknown
name falls through to the skipped result without throwing. -/
def executeJob (svc : InjectedServices) (name : String) : Except String JobResult :=
  if name = "run-evidence-collector" then runEvidenceCollector svc
  else if name = "send-scheduled-notifications" then sendScheduledNotifications svc
  else if name = "send-email" then sendEmail svc
  else if name = "sync-jira" then syncJira svc
  else if name = "sync-servicenow" then syncServiceNow svc
  else if name = "generate-export" then generateExport svc
  else if name = "generate-report" then generateReport svc
  else if name = "cleanup-expired-sessions" then cleanupExpiredSessions svc
  else if name = "cleanup-old-audit-logs" then cleanupOldAuditLogs svc
  else if name = "run-retention-policies" then runRetentionPolicies svc
  else if name = "refresh-search-indexes" then refreshSearchIndexes svc
  else if name = "deliver-webhook" then deliverWebhook svc
  else Except.ok { status := "skipped",
                   reason := some ("Unknown job type: " ++ name) }

/-- Job statuses from the data model. -/
inductive JobStatus where
  | pending
  | active
  | completed
  | failed
  | delayed
  | cancelled
deriving DecidableEq, Repr

/-- A row of the Prisma `job` table (payload is opaque and not modelled). -/
structure Job where
  id : Nat
  queueId : Nat
  name : String
  status : JobStatus
  priority : Int
  createdAt : Nat
  attempts : Nat
  maxAttempts : Nat
  delayUntil : Option Nat := none
  lastError : Option String := none
  result : Option JobResult := none
deriving DecidableEq, Repr

/-- A row of the Prisma `jobQueue` table. -/
structure JobQueue where
  id : Nat
  name : String
  isPaused : Bool
  concurrency : Nat
deriving DecidableEq, Repr

/-- Modelled from the spec: the Retry Policy configuration of the missing
`JobsService` (`base * 2^attempts`, capped at a maximum). -/
structure RetryConfig where
  baseDelayMs : Nat
  maxDelayMs : Nat
deriving DecidableEq, Repr

/-- The scheduler's process state: the re-entrancy flag `isRunning`
together with the job store it reads and writes. -/
structure SchedulerState where
  isRunning : Bool
  queues : List JobQueue
  jobs : List Job
  retryConfig : RetryConfig
deriving DecidableEq, Repr

/-- Modelled from the spec: `JobsService.markJobActive` (not under `src/`;
only its caller is).  Claims the job pending→active; `attempts` increments
exactly once per dispatch attempt. -/
def markJobActive (j : Job) : Job :=
  { j with status := JobStatus.active, attempts := j.attempts + 1 }

/-- Modelled from the spec: `JobsService.markJobCompleted` (not under
`src/`).  Records the handler result and moves the job to completed. -/
def markJobCompleted (r : JobResult) (j : Job) : Job :=
  { j with status := JobStatus.completed, result := some r }

/-- Modelled from the spec: the exponential backoff of the Retry Policy,
`base * 2^attempts` capped at a maximum (jitter omitted). -/
def specBackoff (cfg : RetryConfig) (attempts : Nat) : Nat :=
  min (cfg.baseDelayMs * 2 ^ attempts) cfg.maxDelayMs

/-- Modelled from the spec: `JobsService.markJobFailed` (not under `src/`).
Applies the Retry Policy: below `maxAttempts` the job is delayed with
`delayUntil = now + backoff(attempts)`, otherwise permanently failed with
`lastError` recorded. -/
def markJobFailed (cfg : RetryConfig) (now : Nat) (err : String) (j : Job) : Job :=
  if j.attempts < j.maxAttempts then
    { j with status := JobStatus.delayed,
             delayUntil := some (now + specBackoff cfg j.attempts),
             lastError := some err }
  else
    { j with status := JobStatus.failed, lastError := some err }

/-- Apply `f` to the job with the given id (a single-row Prisma update). -/
def updateJob (jobs : List Job) (id : Nat) (f : Job → Job) : List Job :=
  jobs.map (fun j => if j.id = id then f j else j)

/-- The body of the per-job loop of `processQueueJobs`: mark the claimed
job active, execute it, and mark it completed on a normal return or failed
(retry logic) on a throw. -/
def dispatchOne (svc : InjectedServices) (now : Nat) (st : SchedulerState)
    (j : Job) : SchedulerState :=
  let st1 := { st with jobs := updateJob st.jobs j.id markJobActive }
  match executeJob svc j.name with
  | Except.ok r => { st1 with jobs := updateJob st1.jobs j.id (markJobCompleted r) }
  | Except.error e =>
    { st1 with jobs := updateJob st1.jobs j.id (markJobFailed st.retryConfig now e) }

/-- The `orderBy: [{priority: desc}, {createdAt: asc}]` comparator. -/
def jobLE (a b : Job) : Bool :=
  if a.priority = b.priority then decide (a.createdAt ≤ b.createdAt)
  else decide (b.priority < a.priority)

/-- The `findMany` of `processQueueJobs`: pending jobs of the queue,
priority descending then creation ascending, up to `concurrency`. -/
def selectPending (jobs : List Job) (q : JobQueue) : List Job :=
  ((jobs.filter (fun j => decide (j.queueId = q.id) &&
      decide (j.status = JobStatus.pending))).mergeSort jobLE).take q.concurrency

/-- Source `processQueueJobs`. -/
def processQueueJobs (svc : InjectedServices) (now : Nat)
    (st : SchedulerState) (q : JobQueue) : SchedulerState :=
  (selectPending st.jobs q).foldl (fun s j => dispatchOne svc now s j) st

/-- The per-row effect of `promoteDelayedJobs`' `updateMany`:
`status = delayed` and `delayUntil ≤ now` (a null `delayUntil` never
matches `lte`) becomes pending with `delayUntil` cleared. -/
def promoteJob (now : Nat) (j : Job) : Job :=
  match j.delayUntil with
  | some t =>
    if j.status = JobStatus.delayed ∧ t ≤ now then
      { j with status := JobStatus.pending, delayUntil := none }
    else j
  | none => j

/-- Source `promoteDelayedJobs`. -/
def promoteDelayedJobs (st : SchedulerState) (now : Nat) : SchedulerState :=
  { st with jobs := st.jobs.map (promoteJob now) }

/-- Source `processJobs`: the processing cycle, guarded by `isRunning`. -/
def processJobs (svc : InjectedServices) (now : Nat) (st : SchedulerState) :
    SchedulerState :=
  if st.isRunning then st
  else
    let st1 := { st with isRunning := true }
    let activeQueues := st1.queues.filter (fun q => !q.isPaused)
    let st2 := activeQueues.foldl (fun s q => processQueueJobs svc now s q) st1
    let st3 := promoteDelayedJobs st2 now
    { st3 with isRunning := false }

theorem updateJob_comp (l : List Job) (id : Nat) (f g : Job → Job)
    (hf : ∀ x, (f x).id = x.id) :
    updateJob (updateJob l id f) id g =
      l.map (fun x => if x.id = id then g (f x) else x) := by
  simp only [updateJob, List.map_map]
  apply List.map_congr_left
  intro x _
  by_cases h : x.id = id
  · simp [Function.comp, h, hf]
  · simp [Function.comp, h]

/-- When the handler returns normally, the dispatch loop marks the claimed
job active and then completed, recording the result. -/
theorem dispatchOne_ok (svc : InjectedServices) (now : Nat)
    (st : SchedulerState) (j : Job) (r : JobResult)
    (hok : executeJob svc j.name = Except.ok r) :
    (dispatchOne svc now st j).jobs = st.jobs.map (fun x =>
      if x.id = j.id then
        { x with status := JobStatus.completed, attempts := x.attempts + 1,
                 result := some r }
      else x) := by
  unfold dispatchOne
  rw [hok]
  show updateJob (updateJob st.jobs j.id markJobActive) j.id (markJobCompleted r) = _
  rw [updateJob_comp st.jobs j.id markJobActive (markJobCompleted r) (fun x => rfl)]
  rfl

/-- C5: the re-entrancy guard — invoking `processJobs` while a cycle is
already running returns the state unchanged: no queue is read, no job is
claimed, executed, or promoted; the tick is skipped. -/
theorem processJobs_skips_when_running (svc : InjectedServices) (now : Nat)
    (st : SchedulerState) (h : st.isRunning = true) :
    processJobs svc now st = st := by
  simp [processJobs, h]

/-- Queue fixture. -/
def qMain : JobQueue := { id := 1, name := "default", isPaused := false, concurrency := 5 }

/-- A pending job fixture. -/
def jobPending : Job :=
  { id := 1, queueId := 1, name := "send-email", status := JobStatus.pending,
    priority := 0, createdAt := 10, attempts := 0, maxAttempts := 3 }

/-- A delayed job fixture that is due at time 50. -/
def jobDelayed : Job :=
  { id := 2, queueId := 1, name := "send-email", status := JobStatus.delayed,
    priority := 0, createdAt := 5, attempts := 1, maxAttempts := 3,
    delayUntil := some 50 }

/-- A pending job fixture with an unregistered job-type name. -/
def jobUnknown : Job :=
  { id := 3, queueId := 1, name := "frobnicate", status := JobStatus.pending,
    priority := 0, createdAt := 20, attempts := 0, maxAttempts := 3 }

/-- A deployment with every optional collaborator absent. -/
def svcAbsent : InjectedServices := {}

/-- A scheduler state fixture whose previous cycle is still running, with
work visibly available (a claimable pending job and a due delayed job). -/
def stBusy : SchedulerState :=
  { isRunning := true, queues := [qMain], jobs := [jobPending, jobDelayed],
    retryConfig := { baseDelayMs := 1000, maxDelayMs := 30000 } }

/-- An idle scheduler state fixture. -/
def stIdle : SchedulerState :=
  { isRunning := false, queues := [qMain], jobs := [jobPending, jobDelayed, jobUnknown],
    retryConfig := { baseDelayMs := 1000, maxDelayMs := 30000 } }

/-- Witness for C5: at time 100 the busy fixture (with a due delayed job
and a claimable pending job) is returned untouched. -/
theorem processJobs_skips_when_running_witness :
    processJobs svcAbsent 100 stBusy = stBusy :=
  processJobs_skips_when_running svcAbsent 100 stBusy rfl

/-- C6: the delayed-promotion step maps the job store pointwise; a job with
`status = delayed` and a due `delayUntil` becomes pending with `delayUntil`
cleared and every other field intact, any other job (pending ones included,
and delayed ones whose `delayUntil` is null or in the future) is left
completely unchanged, and no job moves into `active` by promotion. -/
theorem promoteDelayedJobs_promotes_exactly_due (st : SchedulerState) (now : Nat) :
    (promoteDelayedJobs st now).jobs = st.jobs.map (promoteJob now) ∧
    ∀ j : Job,
      ((j.status = JobStatus.delayed ∧ ∃ t, j.delayUntil = some t ∧ t ≤ now) →
        promoteJob now j = { j with status := JobStatus.pending, delayUntil := none }) ∧
      (¬ (j.status = JobStatus.delayed ∧ ∃ t, j.delayUntil = some t ∧ t ≤ now) →
        promoteJob now j = j) ∧
      ((promoteJob now j).status = JobStatus.active → j.status = JobStatus.active) := by
  refine ⟨rfl, fun j => ⟨?_, ?_, ?_⟩⟩
  · rintro ⟨hst, t, ht, hle⟩
    simp [promoteJob, ht, hst, hle]
  · intro hn
    cases ht : j.delayUntil with
    | none => simp [promoteJob, ht]
    | some t =>
      simp only [promoteJob, ht]
      rw [if_neg]
      rintro ⟨h1, h2⟩
      exact hn ⟨h1, t, ht, h2⟩
  · intro hact
    cases ht : j.delayUntil with
    | none => simpa [promoteJob, ht] using hact
    | some t =>
      simp only [promoteJob, ht] at hact
      by_cases h : j.status = JobStatus.delayed ∧ t ≤ now
      · rw [if_pos h] at hact
        simp at hact
      · rwa [if_neg h] at hact

/-- Witness for C6: at time 100 the due delayed fixture is promoted to
pending with `delayUntil` cleared, while the pending fixture is unchanged. -/
theorem promoteDelayedJobs_promotes_exactly_due_witness :
    promoteJob 100 jobDelayed =
      { jobDelayed with status := JobStatus.pending, delayUntil := none } ∧
    promoteJob 100 jobPending = jobPending :=
  ⟨((promoteDelayedJobs_promotes_exactly_due stIdle 100).2 jobDelayed).1
      ⟨rfl, 50, rfl, by decide⟩,
   ((promoteDelayedJobs_promotes_exactly_due stIdle 100).2 jobPending).2.1
      (fun hc => by exact absurd hc.1 (by decide))⟩

/-- The `{status: skipped, reason}` result of the switch's default arm. -/
def skippedResult (name : String) : JobResult :=
  { status := "skipped", reason := some ("Unknown job type: " ++ name) }

/-- C7: a job whose type name has no registered handler does not throw:
`executeJob` returns the skipped result naming the unknown type, and the
dispatch loop therefore marks the job completed immediately (with the
skipped result recorded) instead of routing it into retry. -/
theorem unknown_job_type_skipped (svc : InjectedServices) (nm : String)
    (h : nm ∉ handlerNames) :
    executeJob svc nm = Except.ok (skippedResult nm) ∧
    ∀ (st : SchedulerState) (now : Nat) (j : Job), j.name = nm →
      (dispatchOne svc now st j).jobs = st.jobs.map (fun x =>
        if x.id = j.id then
          { x with status := JobStatus.completed, attempts := x.attempts + 1,
                   result := some (skippedResult nm) }
        else x) := by
  simp only [handlerNames, List.mem_cons, List.not_mem_nil, or_false, not_or] at h
  obtain ⟨h1, h2, h3, h4, h5, h6, h7, h8, h9, h10, h11, h12⟩ := h
  have hex : executeJob svc nm = Except.ok (skippedResult nm) := by
    simp [executeJob, h1, h2, h3, h4, h5, h6, h7, h8, h9, h10, h11, h12, skippedResult]
  exact ⟨hex, fun st now j hj => dispatchOne_ok svc now st j _ (by rw [hj, hex])⟩

/-- Witness for C7: the name "frobnicate" is not a registered handler; the
fixture job of that type is completed immediately with the skipped result. -/
theorem unknown_job_type_skipped_witness :
    executeJob svcAbsent "frobnicate" = Except.ok (skippedResult "frobnicate") ∧
    (dispatchOne svcAbsent 100 stIdle jobUnknown).jobs = stIdle.jobs.map (fun x =>
      if x.id = jobUnknown.id then
        { x with status := JobStatus.completed, attempts := x.attempts + 1,
                 result := some (skippedResult "frobnicate") }
      else x) :=
  ⟨(unknown_job_type_skipped svcAbsent "frobnicate" (by decide)).1,
   (unknown_job_type_skipped svcAbsent "frobnicate" (by decide)).2 stIdle 100
     jobUnknown rfl⟩

/-- The job types whose handler is guarded by an `@Optional()` capability,
paired with the injected slot backing each. -/
def guardedJobs : List (String × (InjectedServices → Option (Except String Unit))) :=
  [("run-evidence-collector", fun s => s.collectorsService),
   ("send-scheduled-notifications", fun s => s.scheduledNotificationsService),
   ("send-email", fun s => s.emailService),
   ("sync-jira", fun s => s.jiraService),
   ("sync-servicenow", fun s => s.serviceNowService),
   ("generate-export", fun s => s.exportsService),
   ("generate-report", fun s => s.reportsService),
   ("cleanup-expired-sessions", fun s => s.sessionService),
   ("run-retention-policies", fun s => s.retentionService),
   ("deliver-webhook", fun s => s.webhooksService)]

/-- C8: for every job type whose backing capability is absent (the optional
service was not injected), executing a job of that type does not throw: it
returns `{status, isMockMode: true, mockModeReason}`, and the dispatch loop
therefore marks the job completed (result recorded) rather than failed. -/
theorem absent_capability_mock_result
    (p : String × (InjectedServices → Option (Except String Unit)))
    (hp : p ∈ guardedJobs) (svc : InjectedServices) (habs : p.2 svc = none) :
    ∃ r : JobResult, executeJob svc p.1 = Except.ok r ∧ r.isMockMode = true ∧
      (∃ s, r.mockModeReason = some s) ∧
      ∀ (st : SchedulerState) (now : Nat) (j : Job), j.name = p.1 →
        (dispatchOne svc now st j).jobs = st.jobs.map (fun x =>
          if x.id = j.id then
            { x with status := JobStatus.completed, attempts := x.attempts + 1,
                     result := some r }
          else x) := by
  simp only [guardedJobs, List.mem_cons, List.not_mem_nil, or_false] at hp
  rcases hp with rfl | rfl | rfl | rfl | rfl | rfl | rfl | rfl | rfl | rfl
  · replace habs : svc.collectorsService = none := habs
    have hcase : executeJob svc "run-evidence-collector" = Except.ok (mockResult
        "completed" "CollectorsService not injected - ensure CollectorsModule is imported") := by
      show runEvidenceCollector svc = _
      rw [runEvidenceCollector, habs]
    exact ⟨_, hcase, rfl, ⟨_, rfl⟩,
      fun st now j hj => dispatchOne_ok svc now st j _ (by rw [hj]; exact hcase)⟩
  · replace habs : svc.scheduledNotificationsService = none := habs
    have hcase : executeJob svc "send-scheduled-notifications" = Except.ok (mockResult
        "completed" "ScheduledNotificationsService not injected") := by
      show sendScheduledNotifications svc = _
      rw [sendScheduledNotifications, habs]
    exact ⟨_, hcase, rfl, ⟨_, rfl⟩,
      fun st now j hj => dispatchOne_ok svc now st j _ (by rw [hj]; exact hcase)⟩
  · replace habs : svc.emailService = none := habs
    have hcase : executeJob svc "send-email" = Except.ok (mockResult
        "sent" "EmailService not injected") := by
      show sendEmail svc = _
      rw [sendEmail, habs]
    exact ⟨_, hcase, rfl, ⟨_, rfl⟩,
      fun st now j hj => dispatchOne_ok svc now st j _ (by rw [hj]; exact hcase)⟩
  · replace habs : svc.jiraService = none := habs
    have hcase : executeJob svc "sync-jira" = Except.ok (mockResult
        "synced" "JiraService not injected - ensure JiraModule is imported") := by
      show syncJira svc = _
      rw [syncJira, habs]
    exact ⟨_, hcase, rfl, ⟨_, rfl⟩,
      fun st now j hj => dispatchOne_ok svc now st j _ (by rw [hj]; exact hcase)⟩
  · replace habs : svc.serviceNowService = none := habs
    have hcase : executeJob svc "sync-servicenow" = Except.ok (mockResult
        "synced" "ServiceNowService not injected - ensure ServiceNowModule is imported") := by
      show syncServiceNow svc = _
      rw [syncServiceNow, habs]
    exact ⟨_, hcase, rfl, ⟨_, rfl⟩,
      fun st now j hj => dispatchOne_ok svc now st j _ (by rw [hj]; exact hcase)⟩
  · replace habs : svc.exportsService = none := habs
    have hcase : executeJob svc "generate-export" = Except.ok (mockResult
        "generated" "ExportsService not injected") := by
      show generateExport svc = _
      rw [generateExport, habs]
    exact ⟨_, hcase, rfl, ⟨_, rfl⟩,
      fun st now j hj => dispatchOne_ok svc now st j _ (by rw [hj]; exact hcase)⟩
  · replace habs : svc.reportsService = none := habs
    have hcase : executeJob svc "generate-report" = Except.ok (mockResult
        "generated" "ReportsService not injected") := by
      show generateReport svc = _
      rw [generateReport, habs]
    exact ⟨_, hcase, rfl, ⟨_, rfl⟩,
      fun st now j hj => dispatchOne_ok svc now st j _ (by rw [hj]; exact hcase)⟩
  · replace habs : svc.sessionService = none := habs
    have hcase : executeJob svc "cleanup-expired-sessions" = Except.ok (mockResult
        "completed" "SessionService not injected") := by
      show cleanupExpiredSessions svc = _
      rw [cleanupExpiredSessions, habs]
    exact ⟨_, hcase, rfl, ⟨_, rfl⟩,
      fun st now j hj => dispatchOne_ok svc now st j _ (by rw [hj]; exact hcase)⟩
  · replace habs : svc.retentionService = none := habs
    have hcase : executeJob svc "run-retention-policies" = Except.ok (mockResult
        "completed" "RetentionService not injected") := by
      show runRetentionPolicies svc = _
      rw [runRetentionPolicies, habs]
    exact ⟨_, hcase, rfl, ⟨_, rfl⟩,
      fun st now j hj => dispatchOne_ok svc now st j _ (by rw [hj]; exact hcase)⟩
  · replace habs : svc.webhooksService = none := habs
    have hcase : executeJob svc "deliver-webhook" = Except.ok (mockResult
        "delivered" "WebhooksService not injected") := by
      show deliverWebhook svc = _
      rw [deliverWebhook, habs]
    exact ⟨_, hcase, rfl, ⟨_, rfl⟩,
      fun st now j hj => dispatchOne_ok svc now st j _ (by rw [hj]; exact hcase)⟩

/-- Witness for C8: with no `EmailService` injected, a "send-email" job
yields an ok, mock-mode-tagged result instead of a throw. -/
theorem absent_capability_mock_result_witness :
    ∃ r : JobResult, executeJob svcAbsent "send-email" = Except.ok r ∧
      r.isMockMode = true ∧ ∃ s, r.mockModeReason = some s := by
  obtain ⟨r, h1, h2, h3, _⟩ := absent_capability_mock_result
    ("send-email", fun s => s.emailService) (by simp [guardedJobs]) svcAbsent rfl
  exact ⟨r, h1, h2, h3⟩

/-!
`retryAsync` (shared error-handling utilities).  The operation under retry
is modelled as a stream `fn : Nat → Except String T` giving the outcome of
its i-th invocation, a thrown value being its message string.  Alongside
the final outcome the model records the observable trace of the loop: how
many times `fn` was invoked and the sequence of backoff delays awaited.
-/

/-- Source `DomainError` (`details` is represented by the one
entry `retryAsync` writes into it, the attempt count). -/
structure DomainError where
  message : String
  code : String
  statusCode : Nat
  attemptsDetail : Option Nat := none
deriving DecidableEq, Repr

/-- Source `getErrorMessage` restricted to the modelled thrown values: a thrown
string is returned as is. -/
def getErrorMessage (e : String) : String := e

/-- Source `getStatusCode` restricted to the modelled thrown values: a thrown
string is not a `DomainError`, not an Axios error and not an object with a
`statusCode`, so the fallback 500 applies. -/
def getStatusCode (_e : String) : Nat := 500

/-- Outcome and observable trace of a `retryAsync` run. -/
structure RetryOutcome (T : Type) where
  result : Except DomainError T
  calls : Nat
  delays : List Nat
deriving DecidableEq, Repr

/-- The `for (let attempt = 0; attempt <= maxRetries; attempt++)` loop of
`retryAsync`, entered at the given `attempt` index. -/
def retryAsyncLoop {T : Type} (fn : Nat → Except String T)
    (maxRetries baseDelayMs maxDelayMs attempt : Nat) : RetryOutcome T :=
  match fn attempt with
  | Except.ok v => { result := Except.ok v, calls := 1, delays := [] }
  | Except.error e =>
    if h : attempt < maxRetries then
      let delayMs := min (baseDelayMs * 2 ^ attempt) maxDelayMs
      let rest := retryAsyncLoop fn maxRetries baseDelayMs maxDelayMs (attempt + 1)
      { result := rest.result, calls := rest.calls + 1, delays := delayMs :: rest.delays }
    else
      { result := Except.error
          { message := getErrorMessage e, code := "RETRY_EXHAUSTED",
            statusCode := getStatusCode e,
            attemptsDetail := some (maxRetries + 1) },
        calls := 1, delays := [] }
termination_by maxRetries - attempt
decreasing_by omega

/-- Source `retryAsync` (in the source `maxDelayMs` defaults to 30000 when the
option is omitted; here it is always passed explicitly). -/
def retryAsync {T : Type} (fn : Nat → Except String T)
    (maxRetries baseDelayMs maxDelayMs : Nat) : RetryOutcome T :=
  retryAsyncLoop fn maxRetries baseDelayMs maxDelayMs 0

theorem retryAsyncLoop_all_failures {T : Type} (errs : Nat → String)
    (maxRetries baseDelayMs maxDelayMs : Nat) :
    ∀ (k attempt : Nat), k = maxRetries - attempt → attempt ≤ maxRetries →
    (retryAsyncLoop (fun i => Except.error (errs i) : Nat → Except String T)
        maxRetries baseDelayMs maxDelayMs attempt).result = Except.error
      { message := errs maxRetries, code := "RETRY_EXHAUSTED",
        statusCode := 500, attemptsDetail := some (maxRetries + 1) } ∧
    (retryAsyncLoop (fun i => Except.error (errs i) : Nat → Except String T)
        maxRetries baseDelayMs maxDelayMs attempt).calls = maxRetries - attempt + 1 ∧
    (retryAsyncLoop (fun i => Except.error (errs i) : Nat → Except String T)
        maxRetries baseDelayMs maxDelayMs attempt).delays =
      (List.range (maxRetries - attempt)).map
        (fun i => min (baseDelayMs * 2 ^ (attempt + i)) maxDelayMs) := by
  intro k
  induction k with
  | zero =>
    intro attempt hk hle
    have heq : attempt = maxRetries := by omega
    subst heq
    rw [retryAsyncLoop]
    simp [getErrorMessage, getStatusCode]
  | succ n ih =>
    intro attempt hk hle
    have hlt : attempt < maxRetries := by omega
    obtain ⟨ihr, ihc, ihd⟩ := ih (attempt + 1) (by omega) (by omega)
    have hn : maxRetries - attempt = n + 1 := by omega
    have hn' : maxRetries - (attempt + 1) = n := by omega
    rw [retryAsyncLoop]
    simp only [dif_pos hlt]
    refine ⟨ihr, by rw [ihc]; omega, ?_⟩
    rw [ihd, hn, hn', List.range_succ_eq_map, List.map_cons, List.map_map]
    congr 1
    apply List.map_congr_left
    intro i _
    have hsh : attempt + 1 + i = attempt + (i + 1) := by omega
    simp [Function.comp, hsh]

/-- C9: for an operation that fails on every invocation, `retryAsync`
invokes it exactly `maxRetries + 1` times, the delay inserted after the
n-th failed attempt (0 ≤ n < maxRetries) is `min(baseDelayMs * 2^n,
maxDelayMs)`, and the run ends with a permanent `RETRY_EXHAUSTED` error
(status 500 for a thrown string, attempt count recorded) with no further
retry. -/
theorem retryAsync_all_failures {T : Type} (errs : Nat → String)
    (maxRetries baseDelayMs maxDelayMs : Nat) :
    (retryAsync (fun i => Except.error (errs i) : Nat → Except String T)
        maxRetries baseDelayMs maxDelayMs).calls = maxRetries + 1 ∧
    (retryAsync (fun i => Except.error (errs i) : Nat → Except String T)
        maxRetries baseDelayMs maxDelayMs).result = Except.error
      { message := errs maxRetries, code := "RETRY_EXHAUSTED",
        statusCode := 500, attemptsDetail := some (maxRetries + 1) } ∧
    (retryAsync (fun i => Except.error (errs i) : Nat → Except String T)
        maxRetries baseDelayMs maxDelayMs).delays =
      (List.range maxRetries).map (fun n => min (baseDelayMs * 2 ^ n) maxDelayMs) ∧
    ∀ n, n < maxRetries →
      (retryAsync (fun i => Except.error (errs i) : Nat → Except String T)
          maxRetries baseDelayMs maxDelayMs).delays[n]? =
        some (min (baseDelayMs * 2 ^ n) maxDelayMs) := by
  obtain ⟨hr, hc, hd⟩ := retryAsyncLoop_all_failures (T := T) errs maxRetries
    baseDelayMs maxDelayMs (maxRetries - 0) 0 rfl (by omega)
  have hd' : (retryAsync (fun i => Except.error (errs i) : Nat → Except String T)
      maxRetries baseDelayMs maxDelayMs).delays =
      (List.range maxRetries).map (fun n => min (baseDelayMs * 2 ^ n) maxDelayMs) := by
    rw [retryAsync, hd]
    simp
  refine ⟨by rw [retryAsync, hc]; omega, by rw [retryAsync, hr], hd', ?_⟩
  intro n hn
  rw [hd']
  simp [List.getElem?_map, List.getElem?_range, hn]

/-- Witness for C9: three max retries with base 1000ms and cap 30000ms on
an always-failing operation: the delay after the second failure (index 1)
is `min(1000 * 2^1, 30000) = 2000`, and the run makes 4 calls ending in
`RETRY_EXHAUSTED`. -/
theorem retryAsync_all_failures_witness :
    (retryAsync (fun _ => Except.error "boom" : Nat → Except String Unit)
        3 1000 30000).calls = 3 + 1 ∧
    (retryAsync (fun _ => Except.error "boom" : Nat → Except String Unit)
        3 1000 30000).delays[1]? = some (min (1000 * 2 ^ 1) 30000) :=
  ⟨(retryAsync_all_failures (fun _ => "boom") 3 1000 30000).1,
   (retryAsync_all_failures (fun _ => "boom") 3 1000 30000).2.2.2 1 (by decide)⟩
